import Mathlib

/-
  Verification of the syslog-ng configuration renderer of the logging-operator.

  The renderer compiles a declarative logging pipeline (flows, filters, outputs,
  global options, secret references) into the textual syslog-ng configuration
  DSL.  The repository snapshot under verification contains the renderer's test
  suite (`TestRenderConfigInto`, `TestRedisOutput`) and the output data model;
  the renderer itself is modelled here from the design specification, faithful
  to its words, and validated against the byte-exact expected documents recorded
  in the test suite.
-/

namespace SyslogNGConfig

/-- Modelled from the spec: the recursive boolean condition tree (§3
`ConditionExpr`, mirroring `filter.MatchExpr` with its `Regexp`, `Not`, `And`,
`Or` variants).  A leaf is a pattern match against a named field with an
optional value-type tag; combinators are negation and n-ary
conjunction/disjunction. -/
inductive MatchExpr where
  | regexp (pattern value : String) (ty : Option String)
  | not (sub : MatchExpr)
  | and (subs : List MatchExpr)
  | or (subs : List MatchExpr)

/-- Modelled from the spec: `filter.SetConfig` — a rewrite that sets a field. -/
structure SetConfig where
  FieldName : String
  Value : String

/-- Modelled from the spec: `filter.UnsetConfig` — a rewrite that unsets a
field, optionally gated by a condition expression. -/
structure UnsetConfig where
  FieldName : String
  Condition : Option MatchExpr

/-- Modelled from the spec: `filter.RewriteConfig` — one rewrite operation,
exactly one of `Set`/`Unset` populated. -/
structure RewriteConfig where
  Set : Option SetConfig
  Unset : Option UnsetConfig

/-- Modelled from the spec: `filter.RegexpParser` — a regular-expression field
extractor with one or more patterns and an output-field prefix. -/
structure RegexpParser where
  Patterns : List String
  Pfx : String

/-- Modelled from the spec: `filter.ParserConfig`. -/
structure ParserConfig where
  Regexp : Option RegexpParser

/-- Modelled from the spec: `v1beta1.SyslogNGFilter` (§3 `FilterSpec`) — an
optional user-supplied ID (empty string means unset, as for the Go zero value)
and exactly one operation: a rewrite chain or a parser. -/
structure SyslogNGFilter where
  ID : String
  Rewrite : List RewriteConfig
  Parser : Option ParserConfig

/-- Modelled from the spec: `corev1.SecretKeySelector` — secret name + key. -/
structure SecretKeySelector where
  Name : String
  Key : String

/-- Modelled from the spec: `secret.ValueFrom`. -/
structure ValueFrom where
  SecretKeyRef : SecretKeySelector

/-- Modelled from the spec: `secret.Secret` (§3 `SecretRef`) — either an inline
literal value or a mount reference to a namespaced secret store entry. -/
structure Secret where
  Value : String
  MountFrom : Option ValueFrom

/-- Modelled from the spec: `output.TLS` — TLS material for a syslog
destination; only the CA file reference is exercised by the repository. -/
structure TLS where
  CaFile : Option Secret

/-- Modelled from the spec: `output.SyslogOutput` — the syslog-transport
destination kind (host, optional transport, optional TLS material). -/
structure SyslogOutput where
  Host : String
  Transport : Option String
  TLS : Option SyslogNGConfig.TLS

/-- Modelled from the spec: `v1beta1.SyslogNGOutputSpec` (§3 `OutputSpec`
payload) — the discriminated union of destination kinds; a zero-kind instance
(no field populated) is legal and renders an empty block. -/
structure SyslogNGOutputSpec where
  Syslog : Option SyslogOutput

/-- Modelled from the spec: `v1beta1.SyslogNGOutput` — identity plus payload. -/
structure SyslogNGOutput where
  Namespace : String
  Name : String
  Spec : SyslogNGOutputSpec

/-- Modelled from the spec: `v1beta1.SyslogNGFlowSpec` (§3 `FlowSpec`) —
optional root match condition, ordered filter chain, ordered destination-name
references. -/
structure SyslogNGFlowSpec where
  Match : Option MatchExpr
  Filters : List SyslogNGFilter
  LocalOutputRefs : List String

/-- Modelled from the spec: `v1beta1.SyslogNGFlow` — identity plus spec. -/
structure SyslogNGFlow where
  Namespace : String
  Name : String
  Spec : SyslogNGFlowSpec

/-- Modelled from the spec: `v1beta1.GlobalOptions` — optional numeric tuning
fields (`*int` in Go, hence `Option Int`). -/
structure GlobalOptions where
  StatsLevel : Option Int
  StatsFreq : Option Int

/-- Modelled from the spec: `v1beta1.SyslogNGSpec`. -/
structure SyslogNGSpec where
  GlobalOptions : Option SyslogNGConfig.GlobalOptions

/-- Modelled from the spec: `v1beta1.LoggingSpec` — the pipeline configuration
section; `none` models a missing syslog-ng section. -/
structure LoggingSpec where
  SyslogNGSpec : Option SyslogNGConfig.SyslogNGSpec

/-- Modelled from the spec: `v1beta1.Logging` — the owning resource. -/
structure Logging where
  Namespace : String
  Name : String
  Spec : LoggingSpec

/-- Modelled from the spec: one entry of the secret store visible to the
secret loader (`corev1.Secret` with namespace, name and a key→value map). -/
structure SecretMount where
  Namespace : String
  Name : String
  Data : List (String × String)

/-- Modelled from the spec: the `secretLoaderFactory` test double — a mount
root path plus the set of secrets the underlying reader can serve. -/
structure SecretLoaderFactory where
  MountPath : String
  Secrets : List SecretMount

/-- Modelled from the spec: `config.Input` (§3 `PipelineSpec`) — the root of
one render call. -/
structure Input where
  Logging : SyslogNGConfig.Logging
  Outputs : List SyslogNGOutput
  Flows : List SyslogNGFlow
  SecretLoaderFactory : SyslogNGConfig.SecretLoaderFactory
  SourcePort : Int

/-- Modelled from the spec: the error taxonomy of §7 (the renderer's terminal
errors; the categories exercised by the claims). -/
inductive RenderError where
  | missingSpec
  | danglingReference (ns name ref : String)
  | secretResolution (ns name key : String)
deriving Repr, DecidableEq

/-- Whether an error is a dangling-reference error (§7). -/
def RenderError.isDangling : RenderError → Bool
  | RenderError.danglingReference _ _ _ => true
  | _ => false

/-- Modelled from the spec: the Identifier Namer (§4.1) — concatenation of the
identity parts with the fixed delimiter `_`, no escaping. -/
def joinID : List String → String
  | [] => ""
  | [p] => p
  | p :: ps => p ++ "_" ++ joinID ps

/-- Flow identity prefix `flow_<namespace>_<name>`. -/
def flowID (f : SyslogNGFlow) : String := joinID ["flow", f.Namespace, f.Name]

/-- Destination identifier `output_<namespace>_<name>` (§4.5). -/
def outputID (o : SyslogNGOutput) : String := joinID ["output", o.Namespace, o.Name]

/-- Filter suffix: the user-supplied ID verbatim when present (non-empty),
else the zero-based decimal index (§4.1, §4.4). -/
def filterSuffix (i : Nat) (f : SyslogNGFilter) : String :=
  if f.ID == "" then toString i else f.ID

/-- Filter identifier `flow_<ns>_<name>_filters_<suffix>` (§4.4 step 1). -/
def filterID (flow : SyslogNGFlow) (i : Nat) (f : SyslogNGFilter) : String :=
  joinID [flowID flow, "filters", filterSuffix i f]

/-- Optional type clause of a leaf match: present exactly when the value-type
tag is set (§4.3). -/
def typeClause : Option String → String
  | some t => " type(\"" ++ t ++ "\")"
  | none => ""

mutual

/-- Modelled from the spec: the Expression Translator (§4.3).  Leaf:
`match("<pattern>" value("<field>") [type("<type>")])`; negation:
`(not <child>)`; conjunction/disjunction: children in declaration order joined
by ` and ` / ` or ` inside parentheses. -/
def renderMatchExpr : MatchExpr → String
  | MatchExpr.regexp pat v ty =>
    "match(\"" ++ pat ++ "\" value(\"" ++ v ++ "\")" ++ typeClause ty ++ ")"
  | MatchExpr.not e => "(not " ++ renderMatchExpr e ++ ")"
  | MatchExpr.and es => "(" ++ String.intercalate " and " (renderMatchExprList es) ++ ")"
  | MatchExpr.or es => "(" ++ String.intercalate " or " (renderMatchExprList es) ++ ")"

/-- Pointwise translation of a child list, preserving order. -/
def renderMatchExprList : List MatchExpr → List String
  | [] => []
  | e :: es => renderMatchExpr e :: renderMatchExprList es

end

/-- Rewrite/set statement `set("<value>" value("<field>"))` (§4.4). -/
def renderSetConfig (s : SetConfig) : String :=
  "set(\"" ++ s.Value ++ "\" value(\"" ++ s.FieldName ++ "\"))"

/-- Rewrite/unset statement `unset(value("<field>") [condition(<expr>)])`,
with the condition clause only when a gate expression is present (§4.4). -/
def renderUnsetConfig (u : UnsetConfig) : String :=
  "unset(value(\"" ++ u.FieldName ++ "\")"
    ++ (match u.Condition with
        | some c => " condition(" ++ renderMatchExpr c ++ ")"
        | none => "") ++ ")"

/-- One rewrite operation dispatched on its populated variant (§4.4). -/
def renderRewriteConfig (r : RewriteConfig) : Option String :=
  match r.Set with
  | some s => some (renderSetConfig s)
  | none =>
    match r.Unset with
    | some u => some (renderUnsetConfig u)
    | none => none

/-- Parser statement
`regexp-parser(patterns("<p1>" "<p2>" ...) prefix("<prefix>"))` (§4.4). -/
def renderRegexpParserCfg (p : RegexpParser) : String :=
  "regexp-parser(patterns("
    ++ String.intercalate " " (p.Patterns.map (fun s => "\"" ++ s ++ "\""))
    ++ ") prefix(\"" ++ p.Pfx ++ "\"))"

/-- Block-kind keyword recorded for a filter: `parser` when the parser payload
is populated, else `rewrite` (§4.4 step 3). -/
def filterKindKeyword (f : SyslogNGFilter) : String :=
  match f.Parser with
  | some _ => "parser"
  | none => "rewrite"

/-- Statement list of one filter's named block (§4.4 step 2). -/
def filterStatements (f : SyslogNGFilter) : List String :=
  match f.Parser with
  | some p =>
    match p.Regexp with
    | some rp => [renderRegexpParserCfg rp]
    | none => []
  | none => f.Rewrite.filterMap renderRewriteConfig

/-- Whether the namespaced secret store holds the given (namespace, name, key)
entry.  The renderer consults only this membership information — never the
stored value — when producing a mount path. -/
def hasSecretKey (fac : SecretLoaderFactory) (ns nm key : String) : Bool :=
  fac.Secrets.any (fun e =>
    e.Namespace == ns && e.Name == nm && e.Data.any (fun kv => kv.fst == key))

/-- Modelled from the spec: the Secret Resolver (§4.2).  An inline literal is
returned unchanged; an external reference resolves to the deterministic local
path `<mountRoot>/<namespace>-<secretName>-<key>`, or to a
`SecretResolutionError` when the store lookup fails. -/
def resolveSecret (fac : SecretLoaderFactory) (ns : String) (s : Secret) :
    Except RenderError String :=
  match s.MountFrom with
  | some vf =>
    if hasSecretKey fac ns vf.SecretKeyRef.Name vf.SecretKeyRef.Key then
      Except.ok (fac.MountPath ++ "/" ++ ns ++ "-" ++ vf.SecretKeyRef.Name
        ++ "-" ++ vf.SecretKeyRef.Key)
    else
      Except.error (RenderError.secretResolution ns vf.SecretKeyRef.Name
        vf.SecretKeyRef.Key)
  | none => Except.ok s.Value

/-- Optional `transport("<t>")` clause of a syslog destination. -/
def transportClause : Option String → String
  | some tr => " transport(\"" ++ tr ++ "\")"
  | none => ""

/-- Optional `tls(ca_file("<path>"))` clause of a syslog destination; the CA
file secret is resolved through the Secret Resolver (§4.5). -/
def tlsClause (fac : SecretLoaderFactory) (ns : String) (t : Option TLS) :
    Except RenderError String :=
  match t with
  | none => Except.ok ""
  | some tl =>
    match tl.CaFile with
    | none => Except.ok " tls()"
    | some s =>
      match resolveSecret fac ns s with
      | Except.error e => Except.error e
      | Except.ok p => Except.ok (" tls(ca_file(\"" ++ p ++ "\"))")

/-- Modelled from the spec: the Destination Renderer (§4.5).  Dispatches on the
populated destination kind; a zero-kind output still emits a syntactically
valid empty named block. -/
def renderOutput (fac : SecretLoaderFactory) (o : SyslogNGOutput) :
    Except RenderError String :=
  match o.Spec.Syslog with
  | none => Except.ok ("destination \"" ++ outputID o ++ "\" \x7b\n\n\x7d;\n")
  | some so =>
    match tlsClause fac o.Namespace so.TLS with
    | Except.error e => Except.error e
    | Except.ok tc =>
      Except.ok ("destination \"" ++ outputID o ++ "\" \x7b\n    syslog(\""
        ++ so.Host ++ "\"" ++ transportClause so.Transport ++ tc
        ++ " persist_name(\"" ++ outputID o ++ "\"))" ++ ";\n\x7d;\n")

/-- Error-propagating map over a list, preserving order (the renderer's
sequential traversal of outputs, flows and references). -/
def mapME (f : α → Except ε β) : List α → Except ε (List β)
  | [] => Except.ok []
  | a :: as =>
    match f a with
    | Except.error e => Except.error e
    | Except.ok b =>
      match mapME f as with
      | Except.error e => Except.error e
      | Except.ok bs => Except.ok (b :: bs)

/-- Resolution of one `LocalOutputRefs` name within the declared outputs: names
resolve in the flow's own namespace (§4.6). -/
def lookupOutput (outputs : List SyslogNGOutput) (ns ref : String) :
    Option SyslogNGOutput :=
  outputs.find? (fun o => o.Namespace == ns && o.Name == ref)

/-- One destination reference statement of a flow's execution block, or the
dangling-reference error when the name resolves to no declared output (§4.6). -/
def destRefStmt (outputs : List SyslogNGOutput) (flow : SyslogNGFlow)
    (ref : String) : Except RenderError String :=
  match lookupOutput outputs flow.Namespace ref with
  | some o => Except.ok ("destination(\"" ++ outputID o ++ "\")")
  | none => Except.error (RenderError.danglingReference flow.Namespace flow.Name ref)

/-- The mandatory built-in namespace-scoped type-qualified match clause
injected by the system at the head of every flow's execution block (§4.6). -/
def nsMatchStmt (ns : String) : String :=
  "filter \x7b\n        "
    ++ renderMatchExpr (MatchExpr.regexp ns "json.kubernetes.namespace_name"
        (some "string"))
    ++ ";\n    \x7d"

/-- Reference statements of a flow's filter chain, in declaration order, each
dispatched by its recorded block-kind keyword (§4.6). -/
def filterRefStmts (flow : SyslogNGFlow) : List String :=
  flow.Spec.Filters.enum.map (fun p =>
    filterKindKeyword p.2 ++ "(\"" ++ filterID flow p.1 p.2 ++ "\")")

/-- Optional reference to the flow's root match-filter block (§4.6). -/
def matchRefStmts (flow : SyslogNGFlow) : List String :=
  match flow.Spec.Match with
  | some _ => ["filter(\"" ++ flowID flow ++ "_match\")"]
  | none => []

/-- Modelled from the spec: the ordered statement list of a flow's `log`
execution block (§4.6 step 3): shared source reference, built-in namespace
match clause, optional root match-filter reference, filter references in
declaration order, destination references in `LocalOutputRefs` order. -/
def logStatements (outputs : List SyslogNGOutput) (flow : SyslogNGFlow) :
    Except RenderError (List String) :=
  match mapME (destRefStmt outputs flow) flow.Spec.LocalOutputRefs with
  | Except.error e => Except.error e
  | Except.ok destRefs =>
    Except.ok ("source(\"main_input\")" :: nsMatchStmt flow.Namespace ::
      (matchRefStmts flow ++ filterRefStmts flow ++ destRefs))

/-- Rendering of an execution block from its statement list, one statement per
line, in order. -/
def renderLogBlock (stmts : List String) : String :=
  "log \x7b\n" ++ String.join (stmts.map (fun s => "    " ++ s ++ ";\n")) ++ "\x7d;\n"

/-- Named `filter` block holding the flow's translated root match condition,
present only when the condition is (§4.6 step 2). -/
def matchBlockText (flow : SyslogNGFlow) : String :=
  match flow.Spec.Match with
  | some e =>
    "filter \"" ++ flowID flow ++ "_match\" \x7b\n    " ++ renderMatchExpr e
      ++ ";\n\x7d;\n"
  | none => ""

/-- Named block of one filter of the chain (§4.4). -/
def filterBlockText (flow : SyslogNGFlow) (i : Nat) (f : SyslogNGFilter) : String :=
  filterKindKeyword f ++ " \"" ++ filterID flow i f ++ "\" \x7b\n"
    ++ String.join ((filterStatements f).map (fun s => "    " ++ s ++ ";\n"))
    ++ "\x7d;\n"

/-- All named filter blocks of a flow, in declaration order. -/
def filterBlocksText (flow : SyslogNGFlow) : String :=
  String.join (flow.Spec.Filters.enum.map (fun p => filterBlockText flow p.1 p.2))

/-- Modelled from the spec: the Flow Assembler (§4.6) — the flow's named
condition block, its filter blocks in order, then its execution block. -/
def renderFlow (outputs : List SyslogNGOutput) (flow : SyslogNGFlow) :
    Except RenderError String :=
  match logStatements outputs flow with
  | Except.error e => Except.error e
  | Except.ok stmts =>
    Except.ok (matchBlockText flow ++ filterBlocksText flow ++ renderLogBlock stmts)

/-- Stats frequency with default substitution: declared-but-zero and absent
both denote "unset" and render as the fixed default 10 (§3, §4.7). -/
def statsFreqValue : Option Int → Int
  | some 0 => 10
  | some n => n
  | none => 10

/-- Stats level line, rendered verbatim only when set (§4.7). -/
def statsLevelLine : Option Int → String
  | some n => "    stats_level(" ++ toString n ++ ");\n"
  | none => ""

/-- Modelled from the spec: the `options` block of the Global Preamble (§4.7). -/
def optionsSection (g : GlobalOptions) : String :=
  "options \x7b\n" ++ statsLevelLine g.StatsLevel ++ "    stats_freq("
    ++ toString (statsFreqValue g.StatsFreq) ++ ");\n\x7d;\n"

/-- Modelled from the spec: the shared ingestion source block parameterized by
the configured port (§4.7). -/
def sourceSection (port : Int) : String :=
  "source \"main_input\" \x7b\n    channel \x7b\n        source \x7b\n            network(flags(\"no-parse\") port("
    ++ toString port
    ++ ") transport(\"tcp\"));\n        \x7d;\n        parser \x7b\n            json-parser(prefix(\"json.\"));\n        \x7d;\n    \x7d;\n\x7d;\n"

/-- Modelled from the spec: the Orchestrator (§4.8) — precondition check, then
preamble, destinations, flows, concatenated with one blank line between major
sections.  `RenderConfigInto` is absent from the repository snapshot (only its
test suite is present); this definition follows §4.7–§4.8 and reproduces the
expected documents of `TestRenderConfigInto` byte-exactly. -/
def renderConfig (input : Input) : Except RenderError String :=
  match input.Logging.Spec.SyslogNGSpec with
  | none => Except.error RenderError.missingSpec
  | some sp =>
    match mapME (renderOutput input.SecretLoaderFactory) input.Outputs with
    | Except.error e => Except.error e
    | Except.ok dests =>
      match mapME (renderFlow input.Outputs) input.Flows with
      | Except.error e => Except.error e
      | Except.ok flowTexts =>
        Except.ok (String.intercalate "\n"
          (["@version: 3.37\n", "@include \"scl.conf\"\n"]
            ++ (match sp.GlobalOptions with
                | some g => [optionsSection g]
                | none => [])
            ++ [sourceSection input.SourcePort]
            ++ dests ++ flowTexts))

/-- Modelled from the spec: the render entry point writing into a sink (§6,
§4.8) — the whole document is assembled before being flushed, so on error the
sink is left untouched. -/
def RenderConfigInto (input : Input) (sink : String) : String × Option RenderError :=
  match renderConfig input with
  | Except.ok s => (sink ++ s, none)
  | Except.error e => (sink, some e)

/-! Concrete fixtures taken from `TestRenderConfigInto` in the repository's
test suite, used to instantiate the theorems below on real inputs. -/

/-- The syslog output of the test case "single flow with single output". -/
def testOutput : SyslogNGOutput :=
  ⟨"default", "test-syslog-out", ⟨some ⟨"test.local", some "tcp", none⟩⟩⟩

/-- The flow of the test case "single flow with single output". -/
def testFlow : SyslogNGFlow :=
  ⟨"default", "test-flow",
    ⟨some (MatchExpr.regexp "nginx" "kubernetes.labels.app" none),
      [⟨"", [⟨some ⟨"cluster", "test-cluster"⟩, none⟩], none⟩],
      ["test-syslog-out"]⟩⟩

/-- A secret loader with no secrets and no mount path. -/
def emptyFactory : SecretLoaderFactory := ⟨"", []⟩

/-- The input of the test case "no syslog-ng spec": the pipeline configuration
section is absent. -/
def noSpecInput : Input := ⟨⟨"", "", ⟨none⟩⟩, [], [], emptyFactory, 0⟩

/-- A pipeline whose flow references output name "test-syslog-out" while no
output at all is declared: a dangling reference. -/
def danglingInput : Input :=
  ⟨⟨"config-test", "test", ⟨some ⟨none⟩⟩⟩, [], [testFlow], emptyFactory, 601⟩

/-- The secret store of the test case "output with secret". -/
def secretFactory : SecretLoaderFactory :=
  ⟨"/etc/syslog-ng/secret", [⟨"default", "my-secret", [("tls.crt", "asdf")]⟩]⟩

/-- The same store shape with a different stored secret value. -/
def secretFactoryAlt : SecretLoaderFactory :=
  ⟨"/etc/syslog-ng/secret", [⟨"default", "my-secret", [("tls.crt", "qwer")]⟩]⟩

/-- The output of the test case "output with secret": TLS CA file loaded from
an external secret reference. -/
def secretOutput : SyslogNGOutput :=
  ⟨"default", "my-output",
    ⟨some ⟨"127.0.0.1", none, some ⟨some ⟨"", some ⟨⟨"my-secret", "tls.crt"⟩⟩⟩⟩⟩⟩⟩

/-- The input of the test case "output with secret". -/
def secretInput : Input :=
  ⟨⟨"logging", "test", ⟨some ⟨none⟩⟩⟩, [secretOutput], [], secretFactory, 601⟩

/-! Helper lemmas about the error-propagating traversal. -/

/-- Pointwise-equal functions traverse equally. -/
theorem mapME_congr {α ε β : Type} {f g : α → Except ε β} :
    ∀ l : List α, (∀ a ∈ l, f a = g a) → mapME f l = mapME g l := by
  intro l h
  induction l with
  | nil => rfl
  | cons a as ih =>
    simp only [mapME]
    rw [h a (List.mem_cons_self a as), ih (fun b hb => h b (List.mem_cons_of_mem a hb))]

/-- A traversal whose steps all succeed is a plain map. -/
theorem mapME_eq_map {α ε β : Type} {f : α → Except ε β} {g : α → β} :
    ∀ l : List α, (∀ a ∈ l, f a = Except.ok (g a)) → mapME f l = Except.ok (l.map g) := by
  intro l h
  induction l with
  | nil => rfl
  | cons a as ih =>
    simp only [mapME, List.map]
    rw [h a (List.mem_cons_self a as), ih (fun b hb => h b (List.mem_cons_of_mem a hb))]

/-- A failed traversal fails with the error of one of its elements. -/
theorem mapME_error_mem {α ε β : Type} {f : α → Except ε β} {e : ε} :
    ∀ l : List α, mapME f l = Except.error e → ∃ a ∈ l, f a = Except.error e := by
  intro l
  induction l with
  | nil => intro h; exact absurd h (by simp [mapME])
  | cons a as ih =>
    intro h
    simp only [mapME] at h
    cases hfa : f a with
    | error e1 =>
      rw [hfa] at h
      cases h
      exact ⟨a, List.mem_cons_self a as, hfa⟩
    | ok b =>
      rw [hfa] at h
      cases hmas : mapME f as with
      | error e2 =>
        rw [hmas] at h
        cases h
        obtain ⟨x, hx, hfx⟩ := ih hmas
        exact ⟨x, List.mem_cons_of_mem a hx, hfx⟩
      | ok bs => rw [hmas] at h; exact absurd h (by simp)

/-- A traversal over a list containing a failing element fails. -/
theorem mapME_error_of_elem {α ε β : Type} {f : α → Except ε β} {e : ε} {a : α} :
    ∀ l : List α, a ∈ l → f a = Except.error e → ∃ e2, mapME f l = Except.error e2 := by
  intro l
  induction l with
  | nil => intro h; exact absurd h (by simp)
  | cons b bs ih =>
    intro hmem hfa
    cases hfb : f b with
    | error e1 => exact ⟨e1, by simp only [mapME]; rw [hfb]⟩
    | ok v =>
      rcases List.mem_cons.mp hmem with rfl | hmem2
      · rw [hfa] at hfb; exact absurd hfb (by simp)
      · obtain ⟨e2, h2⟩ := ih hmem2 hfa
        exact ⟨e2, by simp only [mapME]; rw [hfb, h2]⟩

/-! Claim theorems. -/

/-- C8: the expression translator renders a leaf node as
`match("<pattern>" value("<field>") [type("<type>")])` with the type clause
omitted exactly when the type tag is unset, and renders a negation node as
`(not <translated child>)`, recursing through arbitrary nesting depth without
reordering. -/
theorem match_expr_translation :
    (∀ pat v, renderMatchExpr (MatchExpr.regexp pat v none) =
      "match(\"" ++ pat ++ "\" value(\"" ++ v ++ "\")" ++ ")")
    ∧ (∀ pat v t, renderMatchExpr (MatchExpr.regexp pat v (some t)) =
      "match(\"" ++ pat ++ "\" value(\"" ++ v ++ "\")" ++ (" type(\"" ++ t ++ "\")") ++ ")")
    ∧ (∀ e, renderMatchExpr (MatchExpr.not e) = "(not " ++ renderMatchExpr e ++ ")")
    ∧ renderMatchExpr
        (MatchExpr.not (MatchExpr.not (MatchExpr.regexp "foo" "MESSAGE" (some "string"))))
      = "(not (not match(\"foo\" value(\"MESSAGE\") type(\"string\"))))" := by
  refine ⟨fun pat v => ?_, fun pat v t => ?_, fun e => ?_, by rfl⟩
  · simp [renderMatchExpr, typeClause, String.append_empty]
  · rfl
  · rfl

/-- C7: a filter's emitted identifier joins the flow identity, the role
`filters` and the suffix with the `_` delimiter, where the suffix is the
user-supplied filter ID preserved verbatim (spaces included, unsanitized) when
present, and the zero-based decimal index otherwise. -/
theorem filter_identifier_shape :
    (∀ flow i (f : SyslogNGFilter), filterID flow i f =
      "flow" ++ "_" ++ (flow.Namespace ++ "_" ++ flow.Name) ++ "_"
        ++ ("filters" ++ "_" ++ filterSuffix i f))
    ∧ (∀ i rw pa, filterSuffix i (⟨"", rw, pa⟩ : SyslogNGFilter) = toString i)
    ∧ (∀ i rw pa, filterSuffix i (⟨"remove message", rw, pa⟩ : SyslogNGFilter)
        = "remove message")
    ∧ filterID ⟨"default", "test-flow", ⟨none, [], []⟩⟩ 0 ⟨"remove message", [], none⟩
        = "flow_default_test-flow_filters_remove message"
    ∧ filterID ⟨"default", "test-flow", ⟨none, [], []⟩⟩ 0 ⟨"", [], none⟩
        = "flow_default_test-flow_filters_0" := by
  exact ⟨fun flow i f => rfl, fun i rw pa => rfl, fun i rw pa => rfl, rfl, rfl⟩

/-- C6: an output with no destination-kind payload populated renders
successfully as a syntactically valid empty named `destination` block, exactly
as recorded by `TestRedisOutput`. -/
theorem empty_output_renders_empty_destination :
    (∀ (fac : SecretLoaderFactory) (ns nm : String),
      renderOutput fac ⟨ns, nm, ⟨none⟩⟩ =
        Except.ok ("destination \"" ++ ("output" ++ "_" ++ (ns ++ "_" ++ nm))
          ++ "\" \x7b\n\n\x7d;\n"))
    ∧ renderOutput emptyFactory ⟨"default", "test-redis-out", ⟨none⟩⟩ =
        Except.ok "destination \"output_default_test-redis-out\" \x7b\n\n\x7d;\n" := by
  exact ⟨fun fac ns nm => rfl, rfl⟩

/-- C3: a stats-frequency field explicitly set to 0 renders as
`stats_freq(10)` — never `stats_freq(0)` — and an absent field yields the same
default 10. -/
theorem stats_freq_zero_renders_default (g : GlobalOptions)
    (h : g.StatsFreq = some 0 ∨ g.StatsFreq = none) :
    optionsSection g =
      "options \x7b\n" ++ statsLevelLine g.StatsLevel ++ "    stats_freq(10);\n\x7d;\n" := by
  have h10 : toString (statsFreqValue g.StatsFreq) = "10" := by
    rcases h with h | h <;> rw [h] <;> rfl
  simp [optionsSection, h10, String.append_assoc]

/-- Witness for C3 at the "global options" test case values (stats level 3,
stats frequency explicitly 0). -/
theorem stats_freq_zero_renders_default_witness :
    optionsSection ⟨some 3, some 0⟩ =
      "options \x7b\n    stats_level(3);\n    stats_freq(10);\n\x7d;\n" :=
  (stats_freq_zero_renders_default ⟨some 3, some 0⟩ (Or.inl rfl)).trans (by rfl)

/-- C5: when the pipeline specification section is absent, render returns the
terminal missing-spec error and writes nothing to the sink. -/
theorem missing_spec_is_terminal (input : Input)
    (h : input.Logging.Spec.SyslogNGSpec = none) :
    renderConfig input = Except.error RenderError.missingSpec
    ∧ ∀ sink, RenderConfigInto input sink = (sink, some RenderError.missingSpec) := by
  have h1 : renderConfig input = Except.error RenderError.missingSpec := by
    simp [renderConfig, h]
  exact ⟨h1, fun sink => by simp [RenderConfigInto, h1]⟩

/-- Witness for C5 at the "no syslog-ng spec" test case input. -/
theorem missing_spec_is_terminal_witness :
    renderConfig noSpecInput = Except.error RenderError.missingSpec
    ∧ RenderConfigInto noSpecInput "" = ("", some RenderError.missingSpec) := by
  have h := missing_spec_is_terminal noSpecInput rfl
  exact ⟨h.1, h.2 ""⟩

/-- C9: whenever render fails, the sink is left exactly as it was before the
call — the whole document is assembled before any flush. -/
theorem no_partial_writes_on_error (input : Input) (sink : String) (e : RenderError)
    (h : renderConfig input = Except.error e) :
    RenderConfigInto input sink = (sink, some e) := by
  simp [RenderConfigInto, h]

/-- Witness for C9: a failing render (missing spec) leaves pre-existing sink
contents untouched. -/
theorem no_partial_writes_on_error_witness :
    RenderConfigInto noSpecInput "previously written" =
      ("previously written", some RenderError.missingSpec) :=
  no_partial_writes_on_error noSpecInput "previously written" RenderError.missingSpec rfl

/-- C1: the execution block of every flow lists its statements in fixed order:
the shared ingestion source reference, the built-in namespace match clause, the
optional root match-filter reference, one reference per filter in declaration
order dispatched by its block-kind keyword, then one destination reference per
`LocalOutputRefs` entry in declared order; and the flow's rendered text embeds
exactly that statement list in its `log` block. -/
theorem flow_log_block_statement_order (outputs : List SyslogNGOutput)
    (flow : SyslogNGFlow) (out : String → SyslogNGOutput)
    (h : ∀ ref ∈ flow.Spec.LocalOutputRefs,
      lookupOutput outputs flow.Namespace ref = some (out ref)) :
    logStatements outputs flow = Except.ok (
      "source(\"main_input\")" :: nsMatchStmt flow.Namespace ::
        ((match flow.Spec.Match with
          | some _ => ["filter(\"" ++ flowID flow ++ "_match\")"]
          | none => ([] : List String))
        ++ flow.Spec.Filters.enum.map (fun p =>
            filterKindKeyword p.2 ++ "(\"" ++ filterID flow p.1 p.2 ++ "\")")
        ++ flow.Spec.LocalOutputRefs.map (fun ref =>
            "destination(\"" ++ outputID (out ref) ++ "\")")))
    ∧ ∀ stmts, logStatements outputs flow = Except.ok stmts →
        renderFlow outputs flow = Except.ok
          (matchBlockText flow ++ filterBlocksText flow ++ renderLogBlock stmts) := by
  constructor
  · have hm : mapME (destRefStmt outputs flow) flow.Spec.LocalOutputRefs =
        Except.ok (flow.Spec.LocalOutputRefs.map
          (fun ref => "destination(\"" ++ outputID (out ref) ++ "\")")) :=
      mapME_eq_map _ (fun ref hr => by simp [destRefStmt, h ref hr])
    simp [logStatements, hm, matchRefStmts, filterRefStmts]
  · intro stmts hs
    simp [renderFlow, hs]

set_option maxRecDepth 8192 in
/-- Witness for C1 at the "single flow with single output" test case: the
statement list and the full rendered flow text, byte-identical to the expected
document of the test suite. -/
theorem flow_log_block_statement_order_witness :
    logStatements [testOutput] testFlow = Except.ok
      ["source(\"main_input\")",
       "filter \x7b\n        match(\"default\" value(\"json.kubernetes.namespace_name\") type(\"string\"));\n    \x7d",
       "filter(\"flow_default_test-flow_match\")",
       "rewrite(\"flow_default_test-flow_filters_0\")",
       "destination(\"output_default_test-syslog-out\")"]
    ∧ renderFlow [testOutput] testFlow = Except.ok
      "filter \"flow_default_test-flow_match\" \x7b\n    match(\"nginx\" value(\"kubernetes.labels.app\"));\n\x7d;\nrewrite \"flow_default_test-flow_filters_0\" \x7b\n    set(\"test-cluster\" value(\"cluster\"));\n\x7d;\nlog \x7b\n    source(\"main_input\");\n    filter \x7b\n        match(\"default\" value(\"json.kubernetes.namespace_name\") type(\"string\"));\n    \x7d;\n    filter(\"flow_default_test-flow_match\");\n    rewrite(\"flow_default_test-flow_filters_0\");\n    destination(\"output_default_test-syslog-out\");\n\x7d;\n" := by
  have h := flow_log_block_statement_order [testOutput] testFlow (fun _ => testOutput)
    (by
      intro ref hr
      have hr2 : ref = "test-syslog-out" := by simpa [testFlow] using hr
      subst hr2
      rfl)
  exact ⟨h.1.trans (by rfl), (h.2 _ h.1).trans (by rfl)⟩

/-- C10: the built-in namespace match clause injected as the second statement
of every flow's execution block is exactly
`match("<flow namespace>" value("json.kubernetes.namespace_name") type("string"))`,
wrapped in an inline filter statement, using the flow's own namespace as the
pattern. -/
theorem builtin_namespace_match_clause (outputs : List SyslogNGOutput)
    (flow : SyslogNGFlow) (stmts : List String)
    (h : logStatements outputs flow = Except.ok stmts) :
    stmts[1]? = some ("filter \x7b\n        "
      ++ ("match(\"" ++ flow.Namespace
        ++ "\" value(\"json.kubernetes.namespace_name\") type(\"string\"))")
      ++ ";\n    \x7d") := by
  cases hm : mapME (destRefStmt outputs flow) flow.Spec.LocalOutputRefs with
  | error e => simp [logStatements, hm] at h
  | ok refs =>
    simp only [logStatements, hm] at h
    injection h with h2
    subst h2
    simp [nsMatchStmt, renderMatchExpr, typeClause, String.append_assoc]

/-- Witness for C10 at the "single flow with single output" test case. -/
theorem builtin_namespace_match_clause_witness :
    (["source(\"main_input\")",
      "filter \x7b\n        match(\"default\" value(\"json.kubernetes.namespace_name\") type(\"string\"));\n    \x7d",
      "filter(\"flow_default_test-flow_match\")",
      "rewrite(\"flow_default_test-flow_filters_0\")",
      "destination(\"output_default_test-syslog-out\")"] : List String)[1]? =
      some "filter \x7b\n        match(\"default\" value(\"json.kubernetes.namespace_name\") type(\"string\"));\n    \x7d" :=
  (builtin_namespace_match_clause [testOutput] testFlow _ rfl).trans (by rfl)

/-! Lemmas for the secret-value independence of rendering: the renderer
consults the secret store only through `hasSecretKey` (membership) and the
mount path, never through stored values. -/

/-- Secret resolution depends only on the store's mount path and key set. -/
theorem resolveSecret_ext {fac fac2 : SecretLoaderFactory}
    (hmp : fac.MountPath = fac2.MountPath)
    (hdom : ∀ a b c, hasSecretKey fac a b c = hasSecretKey fac2 a b c)
    (ns : String) (s : Secret) :
    resolveSecret fac ns s = resolveSecret fac2 ns s := by
  unfold resolveSecret
  cases s.MountFrom with
  | none => rfl
  | some vf => simp only [hdom, hmp]

/-- The TLS clause depends only on the store's mount path and key set. -/
theorem tlsClause_ext {fac fac2 : SecretLoaderFactory}
    (hmp : fac.MountPath = fac2.MountPath)
    (hdom : ∀ a b c, hasSecretKey fac a b c = hasSecretKey fac2 a b c)
    (ns : String) (t : Option TLS) :
    tlsClause fac ns t = tlsClause fac2 ns t := by
  cases t with
  | none => rfl
  | some tl =>
    cases htl : tl.CaFile with
    | none => simp [tlsClause, htl]
    | some sec => simp [tlsClause, htl, resolveSecret_ext hmp hdom]

/-- Destination rendering depends only on the store's mount path and key set. -/
theorem renderOutput_ext {fac fac2 : SecretLoaderFactory}
    (hmp : fac.MountPath = fac2.MountPath)
    (hdom : ∀ a b c, hasSecretKey fac a b c = hasSecretKey fac2 a b c)
    (o : SyslogNGOutput) :
    renderOutput fac o = renderOutput fac2 o := by
  cases ho : o.Spec.Syslog with
  | none => simp [renderOutput, ho]
  | some so => simp [renderOutput, ho, tlsClause_ext hmp hdom]

/-- C2: an output referencing an external secret `(ns, secretName, key)`
renders the local file path `<mountRoot>/<ns>-<secretName>-<key>` exactly —
the resolver returns precisely that path, the rendered destination block embeds
it — and the rendered document never depends on the stored secret value: any
store with the same mount path and the same key set yields the identical
document. -/
theorem secret_mount_path_exact_and_value_independent (input : Input)
    (fac2 : SecretLoaderFactory) (ns oname host v : String) (sel : SecretKeySelector)
    (h1 : hasSecretKey input.SecretLoaderFactory ns sel.Name sel.Key = true)
    (hmp : input.SecretLoaderFactory.MountPath = fac2.MountPath)
    (hdom : ∀ a b c, hasSecretKey input.SecretLoaderFactory a b c = hasSecretKey fac2 a b c) :
    resolveSecret input.SecretLoaderFactory ns ⟨v, some ⟨sel⟩⟩ =
      Except.ok (input.SecretLoaderFactory.MountPath ++ "/" ++ ns ++ "-"
        ++ sel.Name ++ "-" ++ sel.Key)
    ∧ renderOutput input.SecretLoaderFactory
        ⟨ns, oname, ⟨some ⟨host, none, some ⟨some ⟨v, some ⟨sel⟩⟩⟩⟩⟩⟩ =
      Except.ok ("destination \"" ++ ("output" ++ "_" ++ (ns ++ "_" ++ oname))
        ++ "\" \x7b\n    syslog(\"" ++ host ++ "\""
        ++ (" tls(ca_file(\"" ++ (input.SecretLoaderFactory.MountPath ++ "/" ++ ns
            ++ "-" ++ sel.Name ++ "-" ++ sel.Key) ++ "\"))")
        ++ " persist_name(\"" ++ ("output" ++ "_" ++ (ns ++ "_" ++ oname)) ++ "\"))"
        ++ ";\n\x7d;\n")
    ∧ renderConfig input = renderConfig { input with SecretLoaderFactory := fac2 } := by
  refine ⟨?_, ?_, ?_⟩
  · simp [resolveSecret, h1]
  · simp [renderOutput, tlsClause, resolveSecret, transportClause, outputID, joinID, h1,
      String.append_empty, String.append_assoc]
  · unfold renderConfig
    rw [mapME_congr input.Outputs (fun o _ => renderOutput_ext hmp hdom o)]

set_option maxRecDepth 8192 in
/-- Witness for C2 at the "output with secret" test case: the exact mount path,
the exact rendered destination block, and the identical document under a store
holding a different secret value ("qwer" instead of "asdf"). -/
theorem secret_mount_path_exact_and_value_independent_witness :
    resolveSecret secretInput.SecretLoaderFactory "default"
        ⟨"", some ⟨⟨"my-secret", "tls.crt"⟩⟩⟩ =
      Except.ok "/etc/syslog-ng/secret/default-my-secret-tls.crt"
    ∧ renderOutput secretInput.SecretLoaderFactory secretOutput =
      Except.ok "destination \"output_default_my-output\" \x7b\n    syslog(\"127.0.0.1\" tls(ca_file(\"/etc/syslog-ng/secret/default-my-secret-tls.crt\")) persist_name(\"output_default_my-output\"));\n\x7d;\n"
    ∧ renderConfig secretInput =
      renderConfig { secretInput with SecretLoaderFactory := secretFactoryAlt } := by
  have h := secret_mount_path_exact_and_value_independent secretInput secretFactoryAlt
    "default" "my-output" "127.0.0.1" "" ⟨"my-secret", "tls.crt"⟩ rfl rfl
    (fun a b c => rfl)
  exact ⟨h.1.trans (by rfl), h.2.1.trans (by rfl), h.2.2⟩

/-! Lemmas for the dangling-reference analysis: the only failure a flow's
assembly can produce is a dangling destination reference. -/

/-- A failing destination-reference statement is a dangling-reference error. -/
theorem destRefStmt_error_isDangling {outputs flow ref e}
    (h : destRefStmt outputs flow ref = Except.error e) : e.isDangling = true := by
  unfold destRefStmt at h
  cases hl : lookupOutput outputs flow.Namespace ref with
  | some o => rw [hl] at h; exact absurd h (by simp)
  | none =>
    rw [hl] at h
    injection h with h2
    rw [← h2]
    rfl

/-- A failing flow assembly fails with a dangling-reference error. -/
theorem renderFlow_error_isDangling {outputs flow e}
    (h : renderFlow outputs flow = Except.error e) : e.isDangling = true := by
  unfold renderFlow at h
  cases hls : logStatements outputs flow with
  | error e1 =>
    rw [hls] at h
    injection h with h2
    subst h2
    unfold logStatements at hls
    cases hm : mapME (destRefStmt outputs flow) flow.Spec.LocalOutputRefs with
    | error e2 =>
      rw [hm] at hls
      injection hls with h3
      subst h3
      obtain ⟨a, _, hfa⟩ := mapME_error_mem _ hm
      exact destRefStmt_error_isDangling hfa
    | ok refs => rw [hm] at hls; exact absurd hls (by simp)
  | ok stmts => rw [hls] at h; exact absurd h (by simp)

/-- C4: a pipeline in which some flow references an output name that no
declared output bears fails with a dangling-reference error and produces no
output (for a present specification section and resolvable destinations, so
that no earlier terminal error preempts the check, per the orchestrator's
sequencing). -/
theorem dangling_output_ref_fails (input : Input) (sp : SyslogNGSpec)
    (dests : List String) (flow : SyslogNGFlow) (ref : String)
    (hsp : input.Logging.Spec.SyslogNGSpec = some sp)
    (hdests : mapME (renderOutput input.SecretLoaderFactory) input.Outputs =
      Except.ok dests)
    (hflow : flow ∈ input.Flows)
    (href : ref ∈ flow.Spec.LocalOutputRefs)
    (hnone : lookupOutput input.Outputs flow.Namespace ref = none) :
    ∃ e, renderConfig input = Except.error e ∧ e.isDangling = true
      ∧ ∀ sink, RenderConfigInto input sink = (sink, some e) := by
  have h1 : destRefStmt input.Outputs flow ref =
      Except.error (RenderError.danglingReference flow.Namespace flow.Name ref) := by
    simp [destRefStmt, hnone]
  obtain ⟨e1, he1⟩ := mapME_error_of_elem _ href h1
  have h2 : logStatements input.Outputs flow = Except.error e1 := by
    simp [logStatements, he1]
  have h3 : renderFlow input.Outputs flow = Except.error e1 := by
    simp [renderFlow, h2]
  obtain ⟨e2, he2⟩ := mapME_error_of_elem _ hflow h3
  have h4 : renderConfig input = Except.error e2 := by
    simp [renderConfig, hsp, hdests, he2]
  obtain ⟨fl2, _, hfl2⟩ := mapME_error_mem _ he2
  refine ⟨e2, h4, renderFlow_error_isDangling hfl2, fun sink => ?_⟩
  simp [RenderConfigInto, h4]

/-- Witness for C4: a flow referencing "test-syslog-out" with no outputs
declared fails with exactly the dangling-reference error naming the flow and
the reference, leaving the sink untouched. -/
theorem dangling_output_ref_fails_witness :
    renderConfig danglingInput =
      Except.error (RenderError.danglingReference "default" "test-flow" "test-syslog-out")
    ∧ RenderConfigInto danglingInput "" =
      ("", some (RenderError.danglingReference "default" "test-flow" "test-syslog-out")) := by
  obtain ⟨e, h1, h2, h3⟩ := dangling_output_ref_fails danglingInput ⟨none⟩ [] testFlow
    "test-syslog-out" rfl rfl (List.mem_singleton.mpr rfl) (List.mem_singleton.mpr rfl) rfl
  have h4 : renderConfig danglingInput =
      Except.error (RenderError.danglingReference "default" "test-flow" "test-syslog-out") := by
    rfl
  have he : e = RenderError.danglingReference "default" "test-flow" "test-syslog-out" := by
    rw [h4] at h1
    injection h1 with h5
    exact h5.symm
  subst he
  exact ⟨h4, h3 ""⟩

end SyslogNGConfig
